import Mathlib

/-!
Verification of the ScoNe notebook glue code (dataset loader, train/dev
split, and the chain-of-thought wrapper module) against its
natural-language specification.

The embedding models:
* a CSV row as an association list from column names to cell strings,
  where looking up an absent column is a `KeyError`;
* `as_example` exactly as in the notebook cell, including Python's
  evaluation order (`category`, then the hypothesis column and its
  first-character indexing, then the gold-label column, then the
  premise column), Python's `str.strip(".")` which removes periods
  from both ends, and the `IndexError` raised by `s[0]` on an empty
  string;
* `load_scone` as: tag every row of every file with the file's base
  name as `category`, concatenate, and build one Example per row,
  propagating the first row-level error (as `DataFrame.apply` does);
  this plain view assumes one shared all-string schema, which is all
  the row-level claims need;
* `load_scone_concat` as the full loading pipeline including
  `pd.concat`'s outer-join column alignment: the concatenated frame's
  columns are the union of every file's header columns, a cell of a
  column the row's own file lacks (or an empty CSV cell) is pandas
  NaN, NaN compares unequal to every string, and subscripting NaN
  raises a `TypeError`; the frame-level claims about header-only files
  and error propagation are settled against this model;
* the notebook's seeded shuffle/split cell as a Fisher-Yates shuffle
  parameterized by the (deterministic) pseudo-random draw function,
  followed by `take 200` / `drop 200, take 50`;
* `ScoNeCoT` as a record holding the external templated-completion
  capability (`generate_answer`), with `forward` calling it once.
-/

/-- The record built by the loader: `dspy.Example` with the four keys
the notebook sets, plus the keys marked as inputs by `with_inputs`. -/
structure Example where
  context : String
  question : String
  answer : String
  category : String
  inputKeys : List String
deriving DecidableEq

/-- A data row: association list from column name to cell contents, in
the all-string view (every cell a present string); `CsvRow` over `Cell`
below adds pandas NaN for the frame-level claims. -/
def Row := List (String × String)

/-- Python `row[k]`: the cell at column `k`, or a `KeyError`. -/
def rowGet (row : Row) (k : String) : Except String String :=
  match List.lookup k row with
  | some v => Except.ok v
  | none => Except.error ("KeyError: " ++ k)

/-- Python `s.strip(".")`: remove `'.'` characters from both ends. -/
def pyStrip (c : Char) (s : String) : String :=
  String.mk (((s.data.dropWhile (fun ch => ch = c)).reverse.dropWhile
    (fun ch => ch = c)).reverse)

/-- The notebook's `as_example(row)`, field by field:
`suffix = '' if row['category'] == 'one_scoped' else '_edited'`;
`question = row[hkey][0].lower() + row[hkey][1:].strip(".")` wrapped in
the fixed sentence; `label = "Yes" if row['gold_label'+suffix] ==
'entailment' else "No"`; the returned Example carries `context`,
`question`, `answer`, `category` and inputs `context`, `question`.
Failures (`KeyError` on a missing column, `IndexError` on an empty
hypothesis) follow Python's evaluation order. -/
def as_example (row : Row) : Except String Example :=
  match rowGet row "category" with
  | Except.error e => Except.error e
  | Except.ok category =>
    let suffix := if category = "one_scoped" then "" else "_edited"
    match rowGet row ("sentence2" ++ suffix) with
    | Except.error e => Except.error e
    | Except.ok hyp =>
      match hyp.data with
      | [] => Except.error "IndexError: string index out of range"
      | c :: rest =>
        let q0 := String.mk [c.toLower] ++ pyStrip '.' (String.mk rest)
        let question := "Can we logically conclude for sure that " ++ q0 ++ "?"
        match rowGet row ("gold_label" ++ suffix) with
        | Except.error e => Except.error e
        | Except.ok gold =>
          let answer := if gold = "entailment" then "Yes" else "No"
          match rowGet row ("sentence1" ++ suffix) with
          | Except.error e => Except.error e
          | Except.ok ctx =>
            Except.ok { context := ctx, question := question,
                        answer := answer, category := category,
                        inputKeys := ["context", "question"] }

/-- One CSV file of the dataset directory: its base name (without the
`.csv` extension) and its data rows. -/
structure SconeFile where
  name : String
  rows : List Row

/-- `df['category'] = basename`: tag each row of a file with the file's
base name, overriding any pre-existing `category` column. -/
def tagRows (f : SconeFile) : List Row :=
  f.rows.map (fun r => ("category", f.name) :: r)

/-- Build one Example per row, propagating the first error, as
`DataFrame.apply` does (an exception raised on any row aborts the whole
application; an empty frame yields an empty result). -/
def buildExamples : List Row → Except String (List Example)
  | [] => Except.ok []
  | r :: rs =>
    match as_example r with
    | Except.error e => Except.error e
    | Except.ok ex =>
      match buildExamples rs with
      | Except.error e => Except.error e
      | Except.ok exs => Except.ok (ex :: exs)

/-- The notebook's `load_scone(dirname)` in the all-string view: read
every CSV file, tag its rows with the file name as `category`,
concatenate all rows, and map `as_example` over them. This view drops
`pd.concat`'s column alignment, so it is faithful for directories
whose files share one schema; `load_scone_concat` below models the
alignment. -/
def load_scone (files : List SconeFile) : Except String (List Example) :=
  buildExamples ((files.map tagRows).flatten)

/-- The concrete row of the spec's scenario: hypothesis
"there is not a single dog" with gold label "entailment"
(un-suffixed columns, i.e. a `one_scoped` row). -/
def scenarioRow : Row :=
  [("category", "one_scoped"),
   ("sentence1", "there is no dog"),
   ("sentence2", "there is not a single dog"),
   ("gold_label", "entailment")]

/-- C3: on a row whose `sentence2` is "there is not a single dog" and
whose `gold_label` is "entailment", the loader builds the question
"Can we logically conclude for sure that there is not a single dog?"
with answer "Yes". -/
theorem as_example_scenario :
    as_example scenarioRow =
      Except.ok { context := "there is no dog",
                  question := "Can we logically conclude for sure that there is not a single dog?",
                  answer := "Yes",
                  category := "one_scoped",
                  inputKeys := ["context", "question"] } := by
  rfl

/-- The gold-label column `as_example` reads for a row of category
`cat`: `gold_label` for `one_scoped`, `gold_label_edited` otherwise. -/
def goldKey (cat : String) : String :=
  "gold_label" ++ (if cat = "one_scoped" then "" else "_edited")

/-- C1: whenever the loader builds an Example from a row, its `answer`
is "Yes" iff the row's gold-label column (`gold_label`, or
`gold_label_edited` for non-`one_scoped` categories) holds
"entailment", and the answer is binary ("Yes" or "No"). -/
theorem as_example_answer_iff_entailment (row : Row) (ex : Example)
    (cat : String)
    (hcat : List.lookup "category" row = some cat)
    (hok : as_example row = Except.ok ex) :
    (ex.answer = "Yes" ↔ List.lookup (goldKey cat) row = some "entailment") ∧
    (ex.answer = "Yes" ∨ ex.answer = "No") := by
  cases hs2 : List.lookup ("sentence2" ++ (if cat = "one_scoped" then "" else "_edited")) row with
  | none => simp [as_example, rowGet, hcat, hs2] at hok
  | some hyp =>
    cases hd : hyp.data with
    | nil => simp [as_example, rowGet, hcat, hs2, hd] at hok
    | cons c rest =>
      cases hg : List.lookup ("gold_label" ++ (if cat = "one_scoped" then "" else "_edited")) row with
      | none => simp [as_example, rowGet, hcat, hs2, hd, hg] at hok
      | some gold =>
        cases hs1 : List.lookup ("sentence1" ++ (if cat = "one_scoped" then "" else "_edited")) row with
        | none => simp [as_example, rowGet, hcat, hs2, hd, hg, hs1] at hok
        | some ctx =>
          simp only [as_example, rowGet, hcat, hs2, hd, hg, hs1] at hok
          rw [Except.ok.injEq] at hok
          subst hok
          rw [goldKey, hg]
          by_cases hge : gold = "entailment" <;> simp [hge]

/-- The hypothesis column `as_example` reads for a row of category
`cat`: `sentence2` for `one_scoped`, `sentence2_edited` otherwise. -/
def hypKey (cat : String) : String :=
  "sentence2" ++ (if cat = "one_scoped" then "" else "_edited")

/-- C10: a row whose hypothesis column holds the empty string makes
`as_example` fail (Python's `row[hkey][0]` raises `IndexError`); no
Example with an empty question is ever produced. -/
theorem as_example_empty_hypothesis_fails (row : Row) (cat : String)
    (hcat : List.lookup "category" row = some cat)
    (hhyp : List.lookup (hypKey cat) row = some "") :
    as_example row = Except.error "IndexError: string index out of range" := by
  rw [hypKey] at hhyp
  simp [as_example, rowGet, hcat, hhyp]

/-- Witness for C10 at a concrete row with an empty `sentence2_edited`. -/
theorem as_example_empty_hypothesis_fails_witness :
    as_example [("category", "two_scoped"), ("sentence1_edited", "A dog barks."),
        ("sentence2_edited", ""), ("gold_label_edited", "entailment")] =
      Except.error "IndexError: string index out of range" :=
  as_example_empty_hypothesis_fails _ "two_scoped" rfl rfl

/-- C9: the question built from a row whose hypothesis column holds the
non-empty string with first character `c` and remaining characters
`rest` is the fixed sentence around `c` lowercased followed by `rest`
with the `'.'` characters stripped from both its ends (not only a
final period). -/
theorem as_example_question_formula (row : Row) (ex : Example)
    (cat : String) (hyp : String) (c : Char) (rest : List Char)
    (hcat : List.lookup "category" row = some cat)
    (hhyp : List.lookup (hypKey cat) row = some hyp)
    (hdata : hyp.data = c :: rest)
    (hok : as_example row = Except.ok ex) :
    ex.question =
      "Can we logically conclude for sure that " ++ String.mk [c.toLower] ++
        String.mk (((rest.dropWhile (fun ch => ch = '.')).reverse.dropWhile
          (fun ch => ch = '.')).reverse) ++ "?" := by
  rw [hypKey] at hhyp
  cases hg : List.lookup ("gold_label" ++ (if cat = "one_scoped" then "" else "_edited")) row with
  | none => simp [as_example, rowGet, hcat, hhyp, hdata, hg] at hok
  | some gold =>
    cases hs1 : List.lookup ("sentence1" ++ (if cat = "one_scoped" then "" else "_edited")) row with
    | none => simp [as_example, rowGet, hcat, hhyp, hdata, hg, hs1] at hok
    | some ctx =>
      simp only [as_example, rowGet, hcat, hhyp, hdata, hg, hs1] at hok
      rw [Except.ok.injEq] at hok
      subst hok
      simp [pyStrip]
      rfl

/-- Witness for C9 at a row whose hypothesis is "A..b.." (leading and
trailing periods in the tail). -/
theorem as_example_question_formula_witness :
    (∃ ex, as_example [("category", "one_scoped"), ("sentence1", "x"),
        ("sentence2", "A..b.."), ("gold_label", "neutral")] = Except.ok ex ∧
      ex.question = "Can we logically conclude for sure that ab?") := by
  refine ⟨_, rfl, ?_⟩
  have h := as_example_question_formula
    [("category", "one_scoped"), ("sentence1", "x"),
     ("sentence2", "A..b.."), ("gold_label", "neutral")]
    _ "one_scoped" "A..b.." 'A' "..b..".data rfl rfl rfl rfl
  rw [h]
  rfl

/-- Counterexample to the claim that the `_edited` suffix applies to two
source fields: a non-`one_scoped` row supplying `sentence1_edited`,
`sentence2_edited` and an un-suffixed `gold_label` is rejected, because
the loader also suffixes the third field and looks for
`gold_label_edited`. -/
theorem as_example_two_suffixed_fields_insufficient :
    as_example [("category", "two_scoped"), ("sentence1_edited", "A dog barks."),
        ("sentence2_edited", "A dog barks."), ("gold_label", "entailment")] =
      Except.error "KeyError: gold_label_edited" := by
  rfl

/-- C2 (amended: the `_edited` suffix applies to all three source
fields): the Example built from a row is entirely determined by the
`category` column together with, for a `one_scoped` row, the
un-suffixed columns `sentence1`, `sentence2`, `gold_label`, and for any
other category the suffixed columns `sentence1_edited`,
`sentence2_edited`, `gold_label_edited`. -/
theorem as_example_column_selection (r1 r2 : Row) (cat : String)
    (h1 : List.lookup "category" r1 = some cat)
    (h2 : List.lookup "category" r2 = some cat)
    (hs1 : List.lookup ("sentence1" ++ (if cat = "one_scoped" then "" else "_edited")) r1 =
      List.lookup ("sentence1" ++ (if cat = "one_scoped" then "" else "_edited")) r2)
    (hs2 : List.lookup ("sentence2" ++ (if cat = "one_scoped" then "" else "_edited")) r1 =
      List.lookup ("sentence2" ++ (if cat = "one_scoped" then "" else "_edited")) r2)
    (hgl : List.lookup ("gold_label" ++ (if cat = "one_scoped" then "" else "_edited")) r1 =
      List.lookup ("gold_label" ++ (if cat = "one_scoped" then "" else "_edited")) r2) :
    as_example r1 = as_example r2 := by
  simp only [as_example, rowGet, h1, h2, hs1, hs2, hgl]

/-- Witness for C2: two rows with different layouts and extra columns
but equal category and equal suffixed source columns map to the same
Example. -/
theorem as_example_column_selection_witness :
    as_example [("category", "two_scoped"), ("sentence1_edited", "A dog barks."),
        ("sentence2_edited", "A dog barks."), ("gold_label_edited", "entailment")] =
      as_example [("category", "two_scoped"), ("extra", "ignored"),
        ("gold_label_edited", "entailment"), ("gold_label", "neutral"),
        ("sentence2_edited", "A dog barks."), ("sentence1_edited", "A dog barks.")] :=
  as_example_column_selection _ _ "two_scoped" rfl rfl rfl rfl rfl

/-- `buildExamples` is length-preserving on success: one Example per
row. -/
theorem buildExamples_length (rows : List Row) (exs : List Example)
    (h : buildExamples rows = Except.ok exs) : exs.length = rows.length := by
  induction rows generalizing exs with
  | nil => simp [buildExamples] at h; simp [← h]
  | cons r rs ih =>
    unfold buildExamples at h
    cases he : as_example r with
    | error e => rw [he] at h; exact absurd h (by simp)
    | ok ex =>
      rw [he] at h
      cases hb : buildExamples rs with
      | error e => rw [hb] at h; exact absurd h (by simp)
      | ok exs2 =>
        rw [hb] at h
        have hx : ex :: exs2 = exs := by simpa using h
        subst hx
        simp [ih exs2 hb]

/-- C4: when loading succeeds, the number of Examples equals the total
number of data rows across all files; no row is dropped. -/
theorem load_scone_length (files : List SconeFile) (exs : List Example)
    (h : load_scone files = Except.ok exs) :
    exs.length = (files.map (fun f => f.rows.length)).sum := by
  have hlen := buildExamples_length _ _ h
  rw [hlen, List.length_flatten]
  simp [Function.comp_def, tagRows]

/-- Two concrete dataset files, with one and two valid rows. -/
def sampleFiles : List SconeFile :=
  [⟨"one_scoped", [[("sentence1", "there is no dog"),
      ("sentence2", "there is not a single dog"), ("gold_label", "entailment")]]⟩,
   ⟨"two_scoped", [[("sentence1_edited", "A dog barks."),
      ("sentence2_edited", "A dog barks."), ("gold_label_edited", "entailment")],
     [("sentence1_edited", "No dog barks."),
      ("sentence2_edited", "A dog barks."), ("gold_label_edited", "neutral")]]⟩]

/-- Witness for C4: the two concrete files with three valid rows in
total load into exactly three Examples. -/
theorem load_scone_length_witness :
    ∃ exs, load_scone sampleFiles = Except.ok exs ∧
      exs.length = (sampleFiles.map (fun f => f.rows.length)).sum := by
  refine ⟨_, rfl, ?_⟩
  exact load_scone_length _ _ rfl


/-- Swap the elements at positions `i` and `j` of a list (identity when
either index is out of range, which the shuffle below never hits). -/
def listSwap (l : List α) (i j : Nat) : List α :=
  match l[i]?, l[j]? with
  | some a, some b => (l.set i b).set j a
  | _, _ => l

/-- The body of Python's `random.shuffle`: for `i` from `len(x) - 1`
down to `1`, draw `j = randbelow(i + 1)` and swap positions `i` and
`j`. The draw function `rb` maps the loop index and the exclusive bound
to the seeded generator's value; `% (i + 1)` records the generator's
guarantee that the draw is below the bound. The generator is a pure
function of the seed, so a fixed seed fixes `rb`. -/
def shuffleSteps (rb : Nat → Nat → Nat) : Nat → List α → List α
  | 0, l => l
  | i + 1, l => shuffleSteps rb i (listSwap l (i + 1) (rb (i + 1) (i + 2) % (i + 2)))

/-- `random.shuffle` after `random.seed`: run the swaps from index
`len - 1` down to `1`. -/
def pyShuffle (rb : Nat → Nat → Nat) (l : List α) : List α :=
  shuffleSteps rb (l.length - 1) l

/-- The notebook's split cell: shuffle, then
`train, dev = all_train[: 200], all_train[200: 250]`. -/
def trainDevSplit (rb : Nat → Nat → Nat) (l : List α) : List α × List α :=
  let shuffled := pyShuffle rb l
  (shuffled.take 200, (shuffled.drop 200).take 50)

/-- `listSwap` preserves length. -/
theorem listSwap_length (l : List α) (i j : Nat) :
    (listSwap l i j).length = l.length := by
  unfold listSwap
  cases l[i]? <;> cases l[j]? <;> simp

/-- Each pass of the shuffle preserves length. -/
theorem shuffleSteps_length (rb : Nat → Nat → Nat) (n : Nat) (l : List α) :
    (shuffleSteps rb n l).length = l.length := by
  induction n generalizing l with
  | zero => rfl
  | succ i ih => rw [shuffleSteps, ih, listSwap_length]

/-- The shuffle is a permutation in size: it preserves length. -/
theorem pyShuffle_length (rb : Nat → Nat → Nat) (l : List α) :
    (pyShuffle rb l).length = l.length := by
  rw [pyShuffle, shuffleSteps_length]

/-- C7: with the draw function fixed by the seed, shuffling a
250-element list and splitting it into the first 200 and next 50 is
deterministic — two runs on the same input agree — and the partitions
have sizes 200 and 50. -/
theorem trainDevSplit_deterministic (rb : Nat → Nat → Nat) (l1 l2 : List α)
    (heq : l1 = l2) (hlen : l1.length = 250) :
    trainDevSplit rb l1 = trainDevSplit rb l2 ∧
    (trainDevSplit rb l1).1.length = 200 ∧
    (trainDevSplit rb l1).2.length = 50 := by
  subst heq
  refine ⟨rfl, ?_, ?_⟩
  · simp [trainDevSplit, pyShuffle_length, hlen]
  · simp [trainDevSplit, pyShuffle_length, hlen]

/-- Witness for C7 on a concrete 250-element list and draw function. -/
theorem trainDevSplit_deterministic_witness :
    (List.replicate 250 (0 : Nat)).length = 250 ∧
    (trainDevSplit (fun i n => i % n) (List.replicate 250 (0 : Nat)) =
        trainDevSplit (fun i n => i % n) (List.replicate 250 (0 : Nat)) ∧
      (trainDevSplit (fun i n => i % n) (List.replicate 250 (0 : Nat))).1.length = 200 ∧
      (trainDevSplit (fun i n => i % n) (List.replicate 250 (0 : Nat))).2.length = 50) :=
  ⟨by rw [List.length_replicate],
   trainDevSplit_deterministic (fun i n => i % n) _ _ rfl
     (by rw [List.length_replicate])⟩

/-- The structured output of the external chain-of-thought capability:
a free-text reasoning field plus the answer field. -/
structure Prediction where
  rationale : String
  answer : String

/-- The notebook's `ScoNeCoT` module: its only component is
`generate_answer`, the external templated-completion capability built
from the signature (modelled as an oracle from the two input fields to
a Prediction). The module has no other fields: it holds no state. -/
structure ScoNeCoT where
  generate_answer : String → String → Prediction

/-- `ScoNeCoT.forward`: a single call to `generate_answer` on the two
fields, returned as is. -/
def ScoNeCoT.forward (m : ScoNeCoT) (context question : String) : Prediction :=
  m.generate_answer context question

/-- C8: `forward` returns exactly the result of one call to the
external capability on the two fields — unchanged, with no retry,
validation or transformation of the answer — and the result depends
only on the capability and the two inputs, so nothing carries over
between calls. -/
theorem ScoNeCoT_forward_single_call (m : ScoNeCoT) (context question : String) :
    m.forward context question = m.generate_answer context question ∧
    (m.forward context question).answer =
      (m.generate_answer context question).answer ∧
    ∀ m2 : ScoNeCoT, m2.generate_answer = m.generate_answer →
      m2.forward context question = m.forward context question := by
  refine ⟨rfl, rfl, ?_⟩
  intro m2 h
  simp [ScoNeCoT.forward, h]

/-- Witness for C1 at a concrete row whose gold label is not
"entailment". -/
theorem as_example_answer_iff_entailment_witness :
    ∃ ex, as_example [("category", "one_scoped"), ("sentence1", "A dog barks."),
        ("sentence2", "No dog barks."), ("gold_label", "neutral")] = Except.ok ex ∧
      ((ex.answer = "Yes" ↔
          List.lookup (goldKey "one_scoped")
            [("category", "one_scoped"), ("sentence1", "A dog barks."),
             ("sentence2", "No dog barks."), ("gold_label", "neutral")] =
            some "entailment") ∧
        (ex.answer = "Yes" ∨ ex.answer = "No")) := by
  refine ⟨_, rfl, ?_⟩
  exact as_example_answer_iff_entailment _ _ "one_scoped" rfl rfl

/-- A cell of the concatenated data frame: a string, or pandas NaN —
the value `read_csv` gives an empty cell and the fill value
`pd.concat`'s default outer join gives a column the row's own file
lacks. -/
inductive Cell where
  | str : String → Cell
  | nan : Cell
deriving DecidableEq

/-- A data row as it sits in one CSV file: the cells that file has. -/
abbrev CsvRow := List (String × Cell)

/-- One CSV file with its header: `read_csv` yields a frame whose
columns are the header's names even when there are zero data rows, and
those columns join the concatenation's column union. -/
structure CsvFile where
  name : String
  cols : List String
  rows : List CsvRow

/-- The columns of the concatenated frame: the `category` column the
loader adds to every per-file frame, plus the outer-join union of
every file's header columns (including zero-row files'). -/
def frameCols (files : List CsvFile) : List String :=
  "category" :: (files.map (fun f => f.cols)).flatten

/-- All data rows, each tagged with its file's base name as `category`,
in file order. -/
def frameRows (files : List CsvFile) : List CsvRow :=
  (files.map (fun f =>
    f.rows.map (fun r => ("category", Cell.str f.name) :: r))).flatten

/-- `row[k]` on a row of the concatenated frame: a `KeyError` when `k`
is not among the frame's columns; otherwise the row's cell, which is
NaN when the row's own file lacks the column (outer-join fill) or the
cell was empty in the CSV. -/
def cellGet (cols : List String) (cells : CsvRow) (k : String) :
    Except String Cell :=
  if k ∈ cols then Except.ok ((List.lookup k cells).getD Cell.nan)
  else Except.error ("KeyError: " ++ k)

/-- The record built from a row of the concatenated frame: `context`
and `category` carry the raw cells (possibly NaN, which Python stores
without complaint); the question is always a built string and the
answer always "Yes" or "No". -/
structure PdExample where
  context : Cell
  question : String
  answer : String
  category : Cell
  inputKeys : List String
deriving DecidableEq

/-- `as_example` on a row of the concatenated frame, with Python's NaN
behavior: `==` between NaN and a string is `False` (a NaN category
picks the `_edited` suffix; a NaN gold label silently yields "No"),
while subscripting a NaN hypothesis in `row[hkey][0]` raises a
`TypeError` because the cell is a float. -/
def as_example_frame (cols : List String) (cells : CsvRow) :
    Except String PdExample :=
  match cellGet cols cells "category" with
  | Except.error e => Except.error e
  | Except.ok category =>
    let suffix := if category = Cell.str "one_scoped" then "" else "_edited"
    match cellGet cols cells ("sentence2" ++ suffix) with
    | Except.error e => Except.error e
    | Except.ok hypCell =>
      match hypCell with
      | Cell.nan => Except.error "TypeError: float object is not subscriptable"
      | Cell.str hyp =>
        match hyp.data with
        | [] => Except.error "IndexError: string index out of range"
        | c :: rest =>
          let q0 := String.mk [c.toLower] ++ pyStrip '.' (String.mk rest)
          let question := "Can we logically conclude for sure that " ++ q0 ++ "?"
          match cellGet cols cells ("gold_label" ++ suffix) with
          | Except.error e => Except.error e
          | Except.ok gold =>
            let answer := if gold = Cell.str "entailment" then "Yes" else "No"
            match cellGet cols cells ("sentence1" ++ suffix) with
            | Except.error e => Except.error e
            | Except.ok ctx =>
              Except.ok { context := ctx, question := question,
                          answer := answer, category := category,
                          inputKeys := ["context", "question"] }

/-- One record per frame row, first error propagated, as
`DataFrame.apply` does. -/
def buildFrameExamples (cols : List String) :
    List CsvRow → Except String (List PdExample)
  | [] => Except.ok []
  | r :: rs =>
    match as_example_frame cols r with
    | Except.error e => Except.error e
    | Except.ok ex =>
      match buildFrameExamples cols rs with
      | Except.error e => Except.error e
      | Except.ok exs => Except.ok (ex :: exs)

/-- `load_scone` including `pd.concat`'s outer-join column alignment:
every tagged row is converted against the union of all files' columns.
The plain `load_scone` above is this loader restricted to directories
whose files share one all-string schema, which suffices for the
row-level claims; the frame-level claims below need the alignment. -/
def load_scone_concat (files : List CsvFile) : Except String (List PdExample) :=
  buildFrameExamples (frameCols files) (frameRows files)

/-- Widening the frame's columns preserves a successful cell read. -/
theorem cellGet_mono (cols1 cols2 : List String) (cells : CsvRow) (k : String)
    (hsub : ∀ x, x ∈ cols1 → x ∈ cols2) (v : Cell)
    (h : cellGet cols1 cells k = Except.ok v) :
    cellGet cols2 cells k = Except.ok v := by
  unfold cellGet at h ⊢
  by_cases hk : k ∈ cols1
  · rw [if_pos hk] at h
    rw [if_pos (hsub k hk)]
    exact h
  · rw [if_neg hk] at h
    exact absurd h (by simp)

/-- Widening the frame's columns preserves a successful conversion:
every cell the row reads is read to the same value. -/
theorem as_example_frame_mono (cols1 cols2 : List String) (cells : CsvRow)
    (hsub : ∀ x, x ∈ cols1 → x ∈ cols2) (ex : PdExample)
    (h : as_example_frame cols1 cells = Except.ok ex) :
    as_example_frame cols2 cells = Except.ok ex := by
  cases hc : cellGet cols1 cells "category" with
  | error e => simp [as_example_frame, hc] at h
  | ok category =>
    have hc2 := cellGet_mono cols1 cols2 cells "category" hsub _ hc
    cases hs2 : cellGet cols1 cells
        ("sentence2" ++ (if category = Cell.str "one_scoped" then "" else "_edited")) with
    | error e => simp [as_example_frame, hc, hs2] at h
    | ok hypCell =>
      have hs2b := cellGet_mono cols1 cols2 cells _ hsub _ hs2
      cases hypCell with
      | nan => simp [as_example_frame, hc, hs2] at h
      | str hyp =>
        cases hd : hyp.data with
        | nil => simp [as_example_frame, hc, hs2, hd] at h
        | cons c rest =>
          cases hg : cellGet cols1 cells
              ("gold_label" ++ (if category = Cell.str "one_scoped" then "" else "_edited")) with
          | error e => simp [as_example_frame, hc, hs2, hd, hg] at h
          | ok gold =>
            have hgb := cellGet_mono cols1 cols2 cells _ hsub _ hg
            cases hs1 : cellGet cols1 cells
                ("sentence1" ++ (if category = Cell.str "one_scoped" then "" else "_edited")) with
            | error e => simp [as_example_frame, hc, hs2, hd, hg, hs1] at h
            | ok ctx =>
              have hs1b := cellGet_mono cols1 cols2 cells _ hsub _ hs1
              simp only [as_example_frame, hc, hs2, hd, hg, hs1] at h
              simp only [as_example_frame, hc2, hs2b, hd, hgb, hs1b]
              exact h

/-- Widening the frame's columns preserves a successful batch build. -/
theorem buildFrameExamples_mono (cols1 cols2 : List String)
    (hsub : ∀ x, x ∈ cols1 → x ∈ cols2) (rows : List CsvRow)
    (exs : List PdExample)
    (h : buildFrameExamples cols1 rows = Except.ok exs) :
    buildFrameExamples cols2 rows = Except.ok exs := by
  induction rows generalizing exs with
  | nil => simpa [buildFrameExamples] using h
  | cons r rs ih =>
    unfold buildFrameExamples at h ⊢
    cases he : as_example_frame cols1 r with
    | error e => rw [he] at h; exact absurd h (by simp)
    | ok ex =>
      rw [he] at h
      rw [as_example_frame_mono cols1 cols2 r hsub ex he]
      cases hb : buildFrameExamples cols1 rs with
      | error e => rw [hb] at h; exact absurd h (by simp)
      | ok exs2 =>
        rw [hb] at h
        rw [ih exs2 hb]
        exact h

/-- C5: a file with a header but zero data rows contributes zero
Examples — prepending it to a directory that loads leaves the result
unchanged (its header columns only widen the outer-join union, which
cannot break a row that already converted) — and a directory holding
only such a file loads successfully to the empty collection rather
than failing. -/
theorem load_scone_concat_header_only (name : String) (cols : List String)
    (files : List CsvFile) (exs : List PdExample)
    (hok : load_scone_concat files = Except.ok exs) :
    load_scone_concat (⟨name, cols, []⟩ :: files) = Except.ok exs ∧
    load_scone_concat [⟨name, cols, []⟩] = Except.ok [] := by
  constructor
  · have hrows : frameRows (⟨name, cols, []⟩ :: files) = frameRows files := by
      simp [frameRows]
    have hsub : ∀ x, x ∈ frameCols files →
        x ∈ frameCols (⟨name, cols, []⟩ :: files) := by
      intro x hx
      simp [frameCols] at hx ⊢
      tauto
    rw [load_scone_concat, hrows]
    exact buildFrameExamples_mono _ _ hsub _ _ hok
  · rw [load_scone_concat]
    simp [frameRows, buildFrameExamples]

/-- A directory of one well-formed `one_scoped` file with one row. -/
def goodFrameFiles : List CsvFile :=
  [⟨"one_scoped", ["sentence1", "sentence2", "gold_label"],
    [[("sentence1", Cell.str "there is no dog"),
      ("sentence2", Cell.str "there is not a single dog"),
      ("gold_label", Cell.str "entailment")]]⟩]

/-- Witness for C5: a concrete header-only file prepended to a loading
directory changes nothing, and alone it loads to the empty
collection. -/
theorem load_scone_concat_header_only_witness :
    ∃ exs, load_scone_concat goodFrameFiles = Except.ok exs ∧
      (load_scone_concat (⟨"extra", ["gold_label_edited"], []⟩ :: goodFrameFiles) =
          Except.ok exs ∧
        load_scone_concat [⟨"extra", ["gold_label_edited"], []⟩] =
          Except.ok []) := by
  refine ⟨_, rfl, ?_⟩
  exact load_scone_concat_header_only "extra" ["gold_label_edited"]
    goodFrameFiles _ rfl

/-- A directory where the `two_scoped` file lacks the expected
`gold_label_edited` column while a zero-row file's header supplies it:
`pd.concat`'s outer join NaN-fills the column for the deficient row. -/
def nanFillFiles : List CsvFile :=
  [⟨"empty_labels", ["sentence1_edited", "sentence2_edited", "gold_label_edited"], []⟩,
   ⟨"two_scoped", ["sentence1_edited", "sentence2_edited"],
     [[("sentence1_edited", Cell.str "A dog barks."),
       ("sentence2_edited", Cell.str "A dog barks.")]]⟩]

/-- Counterexample to C6 as stated: this directory contains a file
missing one of the expected columns (`gold_label_edited`), yet the
loader raises no error — the outer join NaN-fills the column, NaN
compares unequal to "entailment", and the row is silently returned
with answer "No". -/
theorem load_scone_concat_nan_fill_no_error :
    load_scone_concat nanFillFiles =
      Except.ok [{ context := Cell.str "A dog barks.",
                   question := "Can we logically conclude for sure that a dog barks?",
                   answer := "No",
                   category := Cell.str "two_scoped",
                   inputKeys := ["context", "question"] }] := by
  rfl

/-- Every row of a successfully built batch converted successfully:
`buildFrameExamples` never skips a failing row. -/
theorem buildFrameExamples_ok_of_mem (cols : List String) (rows : List CsvRow)
    (exs : List PdExample) (h : buildFrameExamples cols rows = Except.ok exs)
    (r : CsvRow) (hr : r ∈ rows) :
    ∃ ex, as_example_frame cols r = Except.ok ex := by
  induction rows generalizing exs with
  | nil => cases hr
  | cons r0 rs ih =>
    unfold buildFrameExamples at h
    cases he : as_example_frame cols r0 with
    | error e => rw [he] at h; exact absurd h (by simp)
    | ok ex0 =>
      rw [he] at h
      cases hb : buildFrameExamples cols rs with
      | error e => rw [hb] at h; exact absurd h (by simp)
      | ok exs2 =>
        cases hr with
        | head => exact ⟨ex0, he⟩
        | tail _ hmem => exact ih exs2 hb hmem

/-- C6 (amended): row-level conversion failures propagate — if any
tagged row of the concatenated frame fails to convert (a needed column
absent from every file's header, hence from the outer-join union, or a
NaN or empty hypothesis cell), the loader returns an error and never a
partial collection that silently skips the row. A column missing from
one file but present in another file's header is NOT such a failure:
the outer join NaN-fills it, and a NaN-filled gold label silently
yields answer "No" (see the counterexample). -/
theorem load_scone_concat_fails_loudly (files : List CsvFile)
    (h : ∃ r ∈ frameRows files, ∃ e,
      as_example_frame (frameCols files) r = Except.error e) :
    ∀ exs, load_scone_concat files ≠ Except.ok exs := by
  intro exs hok
  obtain ⟨r, hr, e, he⟩ := h
  obtain ⟨ex, hex⟩ := buildFrameExamples_ok_of_mem _ _ _ hok r hr
  rw [hex] at he
  exact absurd he (by simp)

/-- A directory whose only file lacks `gold_label_edited`, with no
other file to supply the column: it is absent from the whole frame. -/
def badFrameFiles : List CsvFile :=
  [⟨"nonsense", ["sentence1_edited", "sentence2_edited"],
    [[("sentence1_edited", Cell.str "A dog barks."),
      ("sentence2_edited", Cell.str "A dog barks.")]]⟩]

/-- Witness for C6: when the missing column is absent from every
header, the row's conversion raises `KeyError` and the loader never
returns a collection. -/
theorem load_scone_concat_fails_loudly_witness :
    (∃ r ∈ frameRows badFrameFiles, ∃ e,
      as_example_frame (frameCols badFrameFiles) r = Except.error e) ∧
    ∀ exs, load_scone_concat badFrameFiles ≠ Except.ok exs := by
  have hmem : ∃ r ∈ frameRows badFrameFiles, ∃ e,
      as_example_frame (frameCols badFrameFiles) r = Except.error e := by
    refine ⟨("category", Cell.str "nonsense") ::
      [("sentence1_edited", Cell.str "A dog barks."),
       ("sentence2_edited", Cell.str "A dog barks.")], ?_, ?_⟩
    · simp [badFrameFiles, frameRows]
    · exact ⟨"KeyError: gold_label_edited", rfl⟩
  exact ⟨hmem, load_scone_concat_fails_loudly badFrameFiles hmem⟩
